import Mathlib

/-!
Verification of the MicroSentinel user-space agent core against its
natural-language specification.  The C++ components under scrutiny are
shallowly embedded as executable Lean definitions: machine integers become
`Nat` (with explicit wraparound where the C++ relies on unsigned
subtraction), `double` becomes `ℚ`, hash tables become association lists,
and every stateful method becomes a pure function from state to state.
Wall-clock reads (`NowNs`) are passed in as explicit arguments.
-/

namespace MicroSentinel

/-- Embedding of `struct ms_lbr_entry` (ms_common.h). -/
structure LbrEntry where
  lbr_from : Nat
  lbr_to : Nat
deriving Repr, DecidableEq

/-- Embedding of `struct ms_sample` (ms_common.h); `Sample = ms_sample`
(sample.h).  The inline LBR array is carried separately as `LbrStack`,
mirroring the user-space `(Sample, LbrStack)` pairs. -/
structure Sample where
  tsc : Nat
  cpu : Nat
  pid : Nat
  tid : Nat
  pmu_event : Nat
  ip : Nat
  data_addr : Nat
  flow_id : Nat
  gso_segs : Nat
  ingress_ifindex : Nat
  numa_node : Nat
  l4_proto : Nat
  direction : Nat
  lbr_nr : Nat
deriving Repr, DecidableEq

/-- Embedding of `LbrStack = std::vector<LbrEntry>`. -/
abbrev LbrStack := List LbrEntry

/-- Event ids from `enum ms_pmu_event_type` (ms_common.h). -/
def MS_EVT_L3_MISS : Nat := 1

def MS_EVT_BRANCH_MISPRED : Nat := 2

def MS_EVT_ICACHE_STALL : Nat := 3

def MS_EVT_AVX_DOWNCLOCK : Nat := 4

def MS_EVT_STALL_BACKEND : Nat := 5

def MS_EVT_XSNP_HITM : Nat := 6

def MS_EVT_REMOTE_DRAM : Nat := 7

/-- Default skid tolerance `MS_FLOW_SKID_NS` (ms_common.h). -/
def MS_FLOW_SKID_NS : Nat := 2000

/-- Embedding of `enum class AgentMode`. -/
inductive AgentMode where
  | Sentinel
  | Diagnostic
deriving Repr, DecidableEq

/-- Embedding of `struct ModeThresholds` (config.h); the `std::chrono`
quiet period is carried in milliseconds as in the source. -/
structure ModeThresholds where
  sentinel_to_diag : ℚ
  diag_to_sentinel : ℚ
  throughput_ratio_trigger : ℚ
  latency_ratio_trigger : ℚ
  anomaly_quiet_period_ms : Nat
deriving Repr, DecidableEq

/-- Embedding of `enum class AnomalyType` (anomaly.h). -/
inductive AnomalyType where
  | ThroughputDrop
  | LatencySpike
deriving Repr, DecidableEq

/-- Embedding of `struct AnomalySignal` (anomaly.h). -/
structure AnomalySignal where
  type : AnomalyType
  ratio : ℚ
  value : ℚ
  timestamp_ns : Nat
deriving Repr, DecidableEq

/-- State of a `ModeController` (json.h header section): thresholds plus
the mutable atomics. -/
structure ModeControllerState where
  thresholds : ModeThresholds
  mode : AgentMode
  last_anomaly_ns : Nat
  last_throughput_ratio : ℚ
  last_latency_ratio : ℚ
deriving Repr, DecidableEq

/-- Embedding of `ModeController::AnomalyHoldActive` (fs_detector.cpp).
The steady-clock read `NowNs()` is the explicit argument `now`. -/
def ModeControllerState.anomalyHoldActive (st : ModeControllerState) (now : Nat) : Bool :=
  let hold_ns := st.thresholds.anomaly_quiet_period_ms * 1000000
  if hold_ns = 0 then false
  else if st.last_anomaly_ns = 0 then false
  else decide (now ≥ st.last_anomaly_ns ∧ now - st.last_anomaly_ns < hold_ns)

/-- Embedding of `ModeController::Update` (fs_detector.cpp).  Returns the
updated state; the C++ return value is the stored mode of that state. -/
def ModeControllerState.update (st : ModeControllerState) (now : Nat) (load_ratio : ℚ) :
    ModeControllerState :=
  if st.mode = AgentMode.Sentinel ∧ load_ratio > st.thresholds.sentinel_to_diag then
    { st with mode := AgentMode.Diagnostic }
  else if st.mode = AgentMode.Diagnostic ∧ st.anomalyHoldActive now = false ∧
      load_ratio < st.thresholds.diag_to_sentinel then
    { st with mode := AgentMode.Sentinel }
  else st

/-- Embedding of `ModeController::NotifyAnomaly` (fs_detector.cpp); `now`
stands for the `NowNs()` fallback used when the signal carries no
timestamp. -/
def ModeControllerState.notifyAnomaly (st : ModeControllerState) (signal : AnomalySignal)
    (now : Nat) : ModeControllerState :=
  let ts := if signal.timestamp_ns ≠ 0 then signal.timestamp_ns else now
  let st1 := { st with last_anomaly_ns := ts }
  match signal.type with
  | AnomalyType.ThroughputDrop =>
      let st2 := { st1 with last_throughput_ratio := signal.ratio }
      if 0 < signal.ratio ∧ signal.ratio < st2.thresholds.throughput_ratio_trigger then
        { st2 with mode := AgentMode.Diagnostic }
      else st2
  | AnomalyType.LatencySpike =>
      let st2 := { st1 with last_latency_ratio := signal.ratio }
      if signal.ratio > st2.thresholds.latency_ratio_trigger then
        { st2 with mode := AgentMode.Diagnostic }
      else st2

/-- Default-constructed thresholds (config.h defaults). -/
def defaultThresholds : ModeThresholds :=
  { sentinel_to_diag := 11/10
  , diag_to_sentinel := 102/100
  , throughput_ratio_trigger := 85/100
  , latency_ratio_trigger := 125/100
  , anomaly_quiet_period_ms := 5000 }

/-- Fresh controller as built by the constructor: Sentinel mode, no
anomaly recorded. -/
def mkModeController (thresholds : ModeThresholds) : ModeControllerState :=
  { thresholds := thresholds
  , mode := AgentMode.Sentinel
  , last_anomaly_ns := 0
  , last_throughput_ratio := 1
  , last_latency_ratio := 1 }

/-! ### Target filter (monitoring_targets.cpp) -/

/-- Embedding of `enum class TargetType` (control_messages.h). -/
inductive TargetType where
  | All
  | Cgroup
  | Process
  | Flow
deriving Repr, DecidableEq

/-- Embedding of `struct FlowTarget` (control_messages.h). -/
structure FlowTarget where
  ingress_ifindex : Nat
  l4_proto : Nat
deriving Repr, DecidableEq

/-- Embedding of `struct TargetSpec` (control_messages.h). -/
structure TargetSpec where
  type : TargetType
  path : String
  pid : Nat
  flow : FlowTarget
deriving Repr, DecidableEq

/-- State of a `MonitoringTargetManager` (monitoring_targets.h): the pid
set is kept as a duplicate-free list. -/
structure MonitoringTargetManager where
  allowed_pids : List Nat
  flow_targets : List FlowTarget
  allow_all : Bool
  has_pid_filter : Bool
  has_flow_filter : Bool
deriving Repr, DecidableEq

/-- Simulates `std::unordered_set<uint32_t>::insert`. -/
def insertPid (pids : List Nat) (pid : Nat) : List Nat :=
  if pid ∈ pids then pids else pid :: pids

/-- Loop body of `MonitoringTargetManager::Update` (monitoring_targets.cpp).
The `cgroupPids` argument models the process list read from
`<path>/cgroup.procs` by `LoadCgroupPids`; the `TargetType.All` arm
returns directly, modelling the `if (allow_all) break;` in the source. -/
def updateTargetsLoop (cgroupPids : String → List Nat) :
    List TargetSpec → List Nat → List FlowTarget → Bool → Bool → Bool →
    Bool × List Nat × List FlowTarget × Bool × Bool
  | [], pids, flows, allow_all, has_pid, has_flow => (allow_all, pids, flows, has_pid, has_flow)
  | spec :: rest, pids, flows, allow_all, has_pid, has_flow =>
    match spec.type with
    | TargetType.All => (true, [], [], false, false)
    | TargetType.Process =>
        let pids := if spec.pid ≠ 0 then insertPid pids spec.pid else pids
        updateTargetsLoop cgroupPids rest pids flows allow_all true has_flow
    | TargetType.Cgroup =>
        let pids := (cgroupPids spec.path).foldl
          (fun acc p => if p ≠ 0 then insertPid acc p else acc) pids
        updateTargetsLoop cgroupPids rest pids flows allow_all true has_flow
    | TargetType.Flow =>
        updateTargetsLoop cgroupPids rest pids (flows ++ [spec.flow]) allow_all has_pid true

/-- Embedding of `MonitoringTargetManager::Update` (monitoring_targets.cpp). -/
def MonitoringTargetManager.update (cgroupPids : String → List Nat)
    (specs : List TargetSpec) : MonitoringTargetManager :=
  let r := updateTargetsLoop cgroupPids specs [] [] specs.isEmpty false false
  { allow_all := r.1
  , allowed_pids := r.2.1
  , flow_targets := r.2.2.1
  , has_pid_filter := r.2.2.2.1
  , has_flow_filter := r.2.2.2.2 }

/-- Embedding of `MonitoringTargetManager::Allow` (monitoring_targets.cpp). -/
def MonitoringTargetManager.allow (m : MonitoringTargetManager) (s : Sample) : Bool :=
  if m.allow_all then true
  else
    let pid_ok := if m.has_pid_filter then decide (s.pid ∈ m.allowed_pids) else true
    if pid_ok = false then false
    else if m.has_flow_filter = false then true
    else m.flow_targets.any fun flow =>
      (decide (flow.ingress_ifindex = 0) || decide (flow.ingress_ifindex = s.ingress_ifindex)) &&
      (decide (flow.l4_proto = 0) || decide (flow.l4_proto = s.l4_proto))

/-! ### Interference classification (interference.cpp) -/

/-- Embedding of `enum class InterferenceClass` with its `uint8_t` values. -/
def InterferenceClassDataPath : Nat := 0

/-- ControlPath = 1. -/
def InterferenceClassControlPath : Nat := 1

/-- ExecutionResource = 2. -/
def InterferenceClassExecutionResource : Nat := 2

/-- TopologyInterconnect = 3. -/
def InterferenceClassTopologyInterconnect : Nat := 3

/-- Unknown = 255. -/
def InterferenceClassUnknown : Nat := 255

/-- Embedding of `ClassifyEvent` (interference.cpp), returning the
`uint8_t` value the aggregator stores. -/
def classifyEvent (evt : Nat) : Nat :=
  if evt = MS_EVT_L3_MISS then InterferenceClassDataPath
  else if evt = MS_EVT_BRANCH_MISPRED ∨ evt = MS_EVT_ICACHE_STALL then
    InterferenceClassControlPath
  else if evt = MS_EVT_AVX_DOWNCLOCK ∨ evt = MS_EVT_STALL_BACKEND then
    InterferenceClassExecutionResource
  else if evt = MS_EVT_XSNP_HITM ∨ evt = MS_EVT_REMOTE_DRAM then
    InterferenceClassTopologyInterconnect
  else InterferenceClassUnknown

/-! ### Aggregator (part of the unnamed sources; header aggregator.h) -/

/-- Embedding of `struct AggregationKey` (aggregator.h). -/
structure AggregationKey where
  flow_id : Nat
  function_hash : Nat
  callstack_id : Nat
  data_object_id : Nat
  pmu_event : Nat
  numa_node : Nat
  interference_class : Nat
  direction : Nat
  bucket : Nat
deriving Repr, DecidableEq

/-- Embedding of `struct AggregatedValue` (aggregator.h); `norm_cost` is a
`double` modelled as `ℚ`. -/
structure AggregatedValue where
  samples : Nat
  norm_cost : ℚ
deriving Repr, DecidableEq

/-- Abstract model of the three `Symbolizer` interning entry points the
aggregator calls; their internals are out of the aggregator's scope. -/
structure SymbolizerModel where
  internFunction : Nat → Nat → Nat
  internStack : Nat → Nat → LbrStack → Nat
  internDataObject : Nat → Nat → Nat

/-- Embedding of `struct AggregatorConfig` (config.h). -/
structure AggregatorConfig where
  time_window_ns : Nat
  max_entries : Nat
deriving Repr, DecidableEq

/-- State of an `Aggregator` (aggregator.h): the unordered map becomes an
association list with pairwise-distinct keys by construction. -/
structure AggregatorState where
  cfg : AggregatorConfig
  symbolizer : Option SymbolizerModel
  table : List (AggregationKey × AggregatedValue)
  sample_scale : ℚ

/-- Embedding of `Aggregator::Bucketize`. -/
def AggregatorState.bucketize (st : AggregatorState) (tsc : Nat) : Nat :=
  if st.cfg.time_window_ns = 0 then tsc else tsc / st.cfg.time_window_ns

/-- Embedding of `Aggregator::InternFunction`: falls back to the raw ip
when no symbolizer is attached. -/
def AggregatorState.internFunction (st : AggregatorState) (pid ip : Nat) : Nat :=
  match st.symbolizer with
  | none => ip
  | some sym => sym.internFunction pid ip

/-- Embedding of `Aggregator::InternCallstack`. -/
def AggregatorState.internCallstack (st : AggregatorState) (pid ip : Nat) (lbr : LbrStack) : Nat :=
  match st.symbolizer with
  | none => ip
  | some sym => sym.internStack pid ip lbr

/-- Embedding of `Aggregator::InternDataObject`. -/
def AggregatorState.internDataObject (st : AggregatorState) (pid addr : Nat) : Nat :=
  match st.symbolizer with
  | none => 0
  | some sym => if addr = 0 then 0 else sym.internDataObject pid addr

/-- Key construction at the head of `Aggregator::AddSample`. -/
def AggregatorState.mkKey (st : AggregatorState) (s : Sample) (lbr : LbrStack) : AggregationKey :=
  { flow_id := s.flow_id
  , function_hash := st.internFunction s.pid s.ip
  , callstack_id := st.internCallstack s.pid s.ip lbr
  , data_object_id := st.internDataObject s.pid s.data_addr
  , pmu_event := s.pmu_event
  , numa_node := s.numa_node
  , interference_class := classifyEvent s.pmu_event
  , direction := s.direction
  , bucket := st.bucketize s.tsc }

/-- Per-sample weight computed in `Aggregator::AddSample`: the stored
scale, divided by `gso_segs` when that exceeds one. -/
def AggregatorState.sampleWeight (st : AggregatorState) (s : Sample) : ℚ :=
  if s.gso_segs > 1 then st.sample_scale / (s.gso_segs : ℚ) else st.sample_scale

/-- Models `table_[key]` followed by the two increments: update the
existing slot or default-construct one. -/
def bumpTable : List (AggregationKey × AggregatedValue) → AggregationKey → ℚ →
    List (AggregationKey × AggregatedValue)
  | [], key, w => [(key, { samples := 1, norm_cost := w })]
  | (k, v) :: rest, key, w =>
    if k = key then (k, { samples := v.samples + 1, norm_cost := v.norm_cost + w }) :: rest
    else (k, v) :: bumpTable rest key w

/-- Embedding of `Aggregator::AddSample`: bump the slot, then clear the
whole table when it has grown past `max_entries`. -/
def AggregatorState.addSample (st : AggregatorState) (s : Sample) (lbr : LbrStack) :
    AggregatorState :=
  let table1 := bumpTable st.table (st.mkKey s lbr) (st.sampleWeight s)
  let table2 := if table1.length > st.cfg.max_entries then [] else table1
  { st with table := table2 }

/-- Sum of `samples` over a table, as accumulated by `Aggregator::Flush`. -/
def sumSamples (table : List (AggregationKey × AggregatedValue)) : Nat :=
  table.foldl (fun acc kv => acc + kv.2.samples) 0

/-- Sum of `norm_cost` over a table. -/
def sumNormCost (table : List (AggregationKey × AggregatedValue)) : ℚ :=
  table.foldl (fun acc kv => acc + kv.2.norm_cost) 0

/-- Result of `Aggregator::Flush`: the entries handed to the callback (in
table order, exactly once each), the returned total, and the state left
behind after the swap. -/
structure FlushResult where
  emitted : List (AggregationKey × AggregatedValue)
  total : Nat
  state : AggregatorState

/-- Embedding of `Aggregator::Flush`. -/
def AggregatorState.flush (st : AggregatorState) : FlushResult :=
  { emitted := st.table
  , total := sumSamples st.table
  , state := { st with table := [] } }

/-- Folds a whole sample stream through `AddSample`. -/
def AggregatorState.addAll (st : AggregatorState) : List (Sample × LbrStack) → AggregatorState
  | [] => st
  | (s, lbr) :: rest => (st.addSample s lbr).addAll rest

/-- Holds when no `AddSample` in the stream triggers the overflow clear
(`table_.size() > max_entries`). -/
def AggregatorState.noShed (st : AggregatorState) : List (Sample × LbrStack) → Bool
  | [] => true
  | (s, lbr) :: rest =>
    (bumpTable st.table (st.mkKey s lbr) (st.sampleWeight s)).length ≤ st.cfg.max_entries &&
      (st.addSample s lbr).noShed rest

/-! ### Skew adjuster (skew_adjuster.h plus its unnamed implementation) -/

/-- Embedding of `SkewAdjuster::Bundle`. -/
structure Bundle where
  sample : Sample
  stack : LbrStack
deriving Repr, DecidableEq

/-- Embedding of the anonymous-namespace helper `AbsDiff`. -/
def absDiff (a b : Nat) : Nat :=
  if a > b then a - b else b - a

/-- One directional scan of `SkewAdjuster::AdjustWindow`: walk the given
candidate sequence, skip zero-flow entries, stop at the first candidate
whose timestamp distance exceeds the tolerance, and keep the closest
donor seen.  The initial `best_delta` of `tol + 1` plays the role of the
`uint64_t` max sentinel: every in-tolerance candidate beats it. -/
def scanCandidates (tol btsc : Nat) : List Bundle → Nat × Nat → Nat × Nat
  | [], best => best
  | c :: rest, (bf, bd) =>
    if c.sample.flow_id = 0 then scanCandidates tol btsc rest (bf, bd)
    else
      let delta := absDiff c.sample.tsc btsc
      if delta > tol then (bf, bd)
      else if delta < bd then scanCandidates tol btsc rest (c.sample.flow_id, delta)
      else scanCandidates tol btsc rest (bf, bd)

/-- Body of the `for (size_t i ...)` loop of `SkewAdjuster::AdjustWindow`
for one index: backward scan over the reversed prefix, then forward scan,
then the in-place flow_id write. -/
def adjustStep (tol : Nat) (es : List Bundle) (i : Nat) : List Bundle :=
  match es[i]? with
  | none => es
  | some b =>
    if b.sample.flow_id ≠ 0 then es
    else
      let back := scanCandidates tol b.sample.tsc ((es.take i).reverse) (0, tol + 1)
      let best := scanCandidates tol b.sample.tsc (es.drop (i + 1)) back
      if best.1 ≠ 0 then
        es.set i { b with sample := { b.sample with flow_id := best.1 } }
      else es

/-- Embedding of `SkewAdjuster::AdjustWindow`. -/
def adjustWindow (tol : Nat) (entries : List Bundle) : List Bundle :=
  if entries.length < 2 then entries
  else (List.range entries.length).foldl (adjustStep tol) entries

/-- Embedding of `SkewAdjuster::DrainReady`: pop the front while more than
one entry remains, then pop one more if the remainder still exceeds the
window capacity.  Returns `(drained, remaining)`. -/
def drainReady (max_window : Nat) (w : List Bundle) : List Bundle × List Bundle :=
  let ready := w.take (w.length - 1)
  let rem := w.drop (w.length - 1)
  if rem.length > max_window then (ready ++ rem.take 1, rem.drop 1) else (ready, rem)

/-- State of a `SkewAdjuster`: tolerance, capacity, and one FIFO per CPU. -/
structure SkewAdjusterState where
  tolerance_ns : Nat
  max_window : Nat
  per_cpu : List (List Bundle)
deriving Repr, DecidableEq

/-- The constructor `SkewAdjuster::SkewAdjuster` with its two clamps. -/
def mkSkewAdjuster (tolerance_ns max_window : Nat) : SkewAdjusterState :=
  { tolerance_ns := if tolerance_ns = 0 then MS_FLOW_SKID_NS else tolerance_ns
  , max_window := if max_window ≥ 2 then max_window else 2
  , per_cpu := [] }

/-- Embedding of `SkewAdjuster::EnsureCpu`: extend the per-CPU vector with
empty windows up to index `cpu`. -/
def SkewAdjusterState.ensureCpu (st : SkewAdjusterState) (cpu : Nat) : SkewAdjusterState :=
  if cpu ≥ st.per_cpu.length then
    { st with per_cpu := st.per_cpu ++ List.replicate (cpu + 1 - st.per_cpu.length) [] }
  else st

/-- Embedding of `SkewAdjuster::Process`: enqueue, rescan, drain all but
the newest entry.  Returns the new state and the bundles emitted, in
order. -/
def SkewAdjusterState.process (st : SkewAdjusterState) (s : Sample) (stack : LbrStack) :
    SkewAdjusterState × List Bundle :=
  let st1 := st.ensureCpu s.cpu
  let window := (st1.per_cpu.getD s.cpu []) ++ [{ sample := s, stack := stack }]
  let window1 := adjustWindow st1.tolerance_ns window
  let r := drainReady st1.max_window window1
  ({ st1 with per_cpu := st1.per_cpu.set s.cpu r.2 }, r.1)

/-- Embedding of `SkewAdjuster::Flush`: drain every per-CPU window in CPU
order, preserving insertion order inside each window. -/
def SkewAdjusterState.flushAll (st : SkewAdjusterState) : SkewAdjusterState × List Bundle :=
  ({ st with per_cpu := st.per_cpu.map (fun _ => []) }
  , st.per_cpu.foldl (fun acc w => acc ++ w) [])

/-! ### False-sharing detector (fs_detector.cpp) -/

/-- Per-line statistics of `FalseSharingDetector::Stats`; the pid-hit
unordered map becomes an association list. -/
structure FsStats where
  total_hits : Nat
  last_tsc : Nat
  cpu_hits : List Nat
  pid_hits : List (Nat × Nat)
deriving Repr, DecidableEq

/-- State of a `FalseSharingDetector`. -/
structure FsDetectorState where
  window_ns : Nat
  threshold : Nat
  table : List (Nat × FsStats)
deriving Repr, DecidableEq

/-- Embedding of `FalseSharingFinding` (without the symbolized object,
which is external to the detector). -/
structure FalseSharingFinding where
  line_addr : Nat
  total_hits : Nat
  cpu_hits : List Nat
  dominant_pid : Nat
deriving Repr, DecidableEq

/-- Increment slot `cpu` of the hit vector after resizing it to
`cpu + 1` as `Observe` does. -/
def bumpCpuHits (hits : List Nat) (cpu : Nat) : List Nat :=
  let hits := if hits.length ≤ cpu then hits ++ List.replicate (cpu + 1 - hits.length) 0 else hits
  hits.set cpu (hits.getD cpu 0 + 1)

/-- Increment the per-pid hit count (unordered-map `operator[]` plus
increment). -/
def bumpPidHits : List (Nat × Nat) → Nat → List (Nat × Nat)
  | [], pid => [(pid, 1)]
  | (p, n) :: rest, pid =>
    if p = pid then (p, n + 1) :: rest else (p, n) :: bumpPidHits rest pid

/-- Update one `Stats` record as `FalseSharingDetector::Observe` does. -/
def observeStats (stats : FsStats) (s : Sample) : FsStats :=
  { total_hits := stats.total_hits + 1
  , last_tsc := s.tsc
  , cpu_hits := bumpCpuHits stats.cpu_hits s.cpu
  , pid_hits := bumpPidHits stats.pid_hits s.pid }

/-- Association-list `operator[]` for the line table. -/
def bumpLine : List (Nat × FsStats) → Nat → Sample → List (Nat × FsStats)
  | [], line, s => [(line, observeStats { total_hits := 0, last_tsc := 0, cpu_hits := [], pid_hits := [] } s)]
  | (l, st) :: rest, line, s =>
    if l = line then (l, observeStats st s) :: rest else (l, st) :: bumpLine rest line s

/-- Embedding of `FalseSharingDetector::Observe`: only `XSNP_HITM`
samples are recorded, keyed by the 64-byte line address. -/
def FsDetectorState.observe (st : FsDetectorState) (s : Sample) : FsDetectorState :=
  if s.pmu_event ≠ MS_EVT_XSNP_HITM then st
  else
    let line := s.data_addr - s.data_addr % 64
    { st with table := bumpLine st.table line s }

/-- The `uint64_t` subtraction `now_tsc - last_tsc` with wraparound. -/
def usub64 (a b : Nat) : Nat :=
  if b ≤ a then a - b else a + 2 ^ 64 - b

/-- Number of CPUs with a non-zero hit count (the `active` counter of
`Flush`). -/
def activeCpus (hits : List Nat) : Nat :=
  hits.countP (fun h => h ≠ 0)

/-- Maximum single-CPU hit count (the `max_hits` accumulator of `Flush`). -/
def maxCpuHits (hits : List Nat) : Nat :=
  hits.foldl max 0

/-- The dominant-pid fold of `Flush`: strict improvement, first maximum
wins. -/
def dominantPid (pid_hits : List (Nat × Nat)) : Nat :=
  (pid_hits.foldl (fun acc ph => if ph.2 > acc.2 then ph else acc) (0, 0)).1

/-- The per-entry filter of `FalseSharingDetector::Flush`: `none` when the
entry is suppressed, `some finding` when it is reported. -/
def fsFinding (threshold : Nat) (line : Nat) (stats : FsStats) : Option FalseSharingFinding :=
  if stats.total_hits < threshold then none
  else if activeCpus stats.cpu_hits < 2 then none
  else if (maxCpuHits stats.cpu_hits : ℚ) / (stats.total_hits : ℚ) ≥ 9/10 then none
  else some
    { line_addr := line
    , total_hits := stats.total_hits
    , cpu_hits := stats.cpu_hits
    , dominant_pid := dominantPid stats.pid_hits }

/-- Embedding of `FalseSharingDetector::Flush`: expire entries older than
the window, keep the rest, and report the expired entries that pass the
filters.  Returns the new state and the findings handed to the callback. -/
def FsDetectorState.flush (st : FsDetectorState) (now_tsc : Nat) :
    FsDetectorState × List FalseSharingFinding :=
  let expired := st.table.filter (fun e => usub64 now_tsc e.2.last_tsc > st.window_ns)
  let rest := st.table.filter (fun e => ¬ usub64 now_tsc e.2.last_tsc > st.window_ns)
  ({ st with table := rest }
  , expired.filterMap (fun e => fsFinding st.threshold e.1 e.2))

/-! ### TSC calibrator (tsc_calibrator.cpp) -/

/-- Embedding of `TscCalibrator::CpuModel` (perf_consumer.h). -/
structure CpuModel where
  slope : ℚ
  offset : ℚ
  last_raw : Nat
  last_ref : Nat
  initialized : Bool
  passthrough_steady_ns : Bool
deriving Repr, DecidableEq

/-- Default-constructed `CpuModel`. -/
def defaultCpuModel : CpuModel :=
  { slope := 1, offset := 0, last_raw := 0, last_ref := 0
  , initialized := false, passthrough_steady_ns := false }

/-- Embedding of `struct TscCalibrationConfig` (config.h). -/
structure TscCalibrationConfig where
  enabled : Bool
  slope_alpha : ℚ
  offset_alpha : ℚ
deriving Repr, DecidableEq

/-- State of a `TscCalibrator`. -/
structure TscCalibratorState where
  cfg : TscCalibrationConfig
  models : List CpuModel
deriving Repr, DecidableEq

/-- The `std::clamp(v, lo, hi)` applied to the smoothing factors. -/
def clampQ (v lo hi : ℚ) : ℚ :=
  if v < lo then lo else if hi < v then hi else v

/-- Embedding of `TscCalibrator::EnsureModel`: grow the per-CPU vector
with default models to cover `cpu`. -/
def TscCalibratorState.ensureModel (st : TscCalibratorState) (cpu : Nat) : TscCalibratorState :=
  if cpu ≥ st.models.length then
    { st with models := st.models ++ List.replicate (cpu + 1 - st.models.length) defaultCpuModel }
  else st

/-- The model stored for a CPU. -/
def TscCalibratorState.model (st : TscCalibratorState) (cpu : Nat) : CpuModel :=
  st.models.getD cpu defaultCpuModel

/-- Replace the model stored for a CPU. -/
def TscCalibratorState.setModel (st : TscCalibratorState) (cpu : Nat) (m : CpuModel) :
    TscCalibratorState :=
  { st with models := st.models.set cpu m }

/-- The slope EWMA step of `TscCalibrator::Normalize`: update via
`Δref/Δraw` when both deltas are positive and the estimate lies in
`(0, 10)`, otherwise keep the old slope. -/
def tscSlopeNext (cfg : TscCalibrationConfig) (m : CpuModel) (raw_tsc ref_ns : Nat) : ℚ :=
  let slope_alpha := clampQ cfg.slope_alpha (1/1000) (1/2)
  let raw_delta : Nat := if raw_tsc ≥ m.last_raw then raw_tsc - m.last_raw else 0
  let ref_delta : Nat := usub64 ref_ns m.last_ref
  if raw_delta > 0 ∧ ref_delta > 0 then
    let slope_est := (ref_delta : ℚ) / (raw_delta : ℚ)
    if 0 < slope_est ∧ slope_est < 10 then
      slope_alpha * slope_est + (1 - slope_alpha) * m.slope
    else m.slope
  else m.slope

/-- The offset EWMA step of `TscCalibrator::Normalize`, using the slope
already advanced by `tscSlopeNext`. -/
def tscOffsetNext (cfg : TscCalibrationConfig) (m : CpuModel) (raw_tsc ref_ns : Nat) : ℚ :=
  let offset_alpha := clampQ cfg.offset_alpha (1/1000) (1/2)
  offset_alpha * ((ref_ns : ℚ) - tscSlopeNext cfg m raw_tsc ref_ns * (raw_tsc : ℚ)) +
    (1 - offset_alpha) * m.offset

/-- Embedding of `TscCalibrator::Normalize` (tsc_calibrator.cpp).  The
steady-clock read `NowNs()` is the explicit argument `ref_ns`; the final
`static_cast<uint64_t>` of a non-negative double becomes `Int.toNat` of
the floor. -/
def TscCalibratorState.normalize (st : TscCalibratorState) (cpu raw_tsc ref_ns : Nat) :
    Nat × TscCalibratorState :=
  if st.cfg.enabled = false then (raw_tsc, st)
  else
    let st1 := st.ensureModel cpu
    let m := st1.model cpu
    if m.initialized = false then
      if 0 < ref_ns ∧ 0 < raw_tsc ∧ (3/4 : ℚ) < (raw_tsc : ℚ) / (ref_ns : ℚ) ∧
          (raw_tsc : ℚ) / (ref_ns : ℚ) < 3/2 then
        (raw_tsc, st1.setModel cpu
          { m with
            initialized := true
            passthrough_steady_ns := true
            last_raw := raw_tsc
            last_ref := ref_ns })
      else
        (ref_ns, st1.setModel cpu
          { m with
            initialized := true
            slope := 1
            offset := (ref_ns : ℚ) - (raw_tsc : ℚ)
            last_raw := raw_tsc
            last_ref := ref_ns })
    else if m.passthrough_steady_ns then (raw_tsc, st1)
    else
      let slope := tscSlopeNext st.cfg m raw_tsc ref_ns
      let offset := tscOffsetNext st.cfg m raw_tsc ref_ns
      let normalized := slope * (raw_tsc : ℚ) + offset
      let clamped := if normalized < 0 then 0 else normalized
      (⌊clamped⌋.toNat, st1.setModel cpu
        { m with
          slope := slope
          offset := offset
          last_raw := raw_tsc
          last_ref := ref_ns })

/-! ### Token-bucket update (bucket_update.h plus its unnamed implementation) -/

/-- Embedding of `struct BucketState`. -/
structure BucketState where
  sentinel_budget : Nat
  diagnostic_budget : Nat
  hard_drop_ns : Nat
deriving Repr, DecidableEq

/-- Embedding of `struct BucketUpdateRequest`. -/
structure BucketUpdateRequest where
  has_sentinel : Bool
  sentinel_budget : Nat
  has_diagnostic : Bool
  diagnostic_budget : Nat
  has_hard_drop : Bool
  hard_drop_ns : Nat
deriving Repr, DecidableEq

/-- Embedding of `struct BucketUpdateOutcome`. -/
structure BucketUpdateOutcome where
  reprogram_required : Bool
  active_budget : Nat
deriving Repr, DecidableEq

/-- Embedding of `ApplyBucketUpdate` (unnamed source): returns the
outcome together with the mutated state. -/
def applyBucketUpdate (req : BucketUpdateRequest) (mode : AgentMode) (state : BucketState) :
    BucketUpdateOutcome × BucketState :=
  let sentinel_changed := req.has_sentinel && req.sentinel_budget > 0
  let state1 := if sentinel_changed then { state with sentinel_budget := req.sentinel_budget }
    else state
  let diagnostic_changed := req.has_diagnostic && req.diagnostic_budget > 0
  let diag_auto_adjusted := !diagnostic_changed && sentinel_changed &&
    state1.diagnostic_budget < state1.sentinel_budget
  let state2 :=
    if diagnostic_changed then { state1 with diagnostic_budget := req.diagnostic_budget }
    else if diag_auto_adjusted then { state1 with diagnostic_budget := state1.sentinel_budget }
    else state1
  let drop_changed := req.has_hard_drop && req.hard_drop_ns > 0
  let state3 := if drop_changed then { state2 with hard_drop_ns := req.hard_drop_ns } else state2
  let active_budget := match mode with
    | AgentMode.Sentinel => state3.sentinel_budget
    | AgentMode.Diagnostic => state3.diagnostic_budget
  let active_budget_changed := match mode with
    | AgentMode.Sentinel => sentinel_changed
    | AgentMode.Diagnostic => diagnostic_changed || diag_auto_adjusted
  ({ reprogram_required := drop_changed || active_budget_changed
   , active_budget := active_budget }, state3)

/-- A request carries a sentinel-budget write (`has_sentinel` with a
positive value). -/
def writesSentinel (req : BucketUpdateRequest) : Bool :=
  req.has_sentinel && req.sentinel_budget > 0

/-- A request carries a diagnostic-budget write. -/
def writesDiagnostic (req : BucketUpdateRequest) : Bool :=
  req.has_diagnostic && req.diagnostic_budget > 0

/-- A request carries a hard-drop write. -/
def writesHardDrop (req : BucketUpdateRequest) : Bool :=
  req.has_hard_drop && req.hard_drop_ns > 0

/-- Apply a sequence of bucket updates, each under the agent mode current
at that moment. -/
def applyBucketSeq (state : BucketState) : List (BucketUpdateRequest × AgentMode) → BucketState
  | [] => state
  | (req, mode) :: rest => applyBucketSeq (applyBucketUpdate req mode state).2 rest

/-- Two bundles agree on everything except possibly the sample's
flow_id: the stack and every other sample field are identical. -/
def exceptFlow (a b : Bundle) : Prop :=
  b.stack = a.stack ∧ b.sample = { a.sample with flow_id := b.sample.flow_id }

/-- Written from C5's wording: a zero-flow entry adopts a neighbor's
non-zero flow_id when the timestamps differ by at most the tolerance. -/
def specNearestAdopt (tol : Nat) (x donor : Bundle) : Bundle :=
  if x.sample.flow_id = 0 ∧ donor.sample.flow_id ≠ 0 ∧
      absDiff x.sample.tsc donor.sample.tsc ≤ tol then
    { x with sample := { x.sample with flow_id := donor.sample.flow_id } }
  else x

/-- Written from C5's wording, specialized to the two-entry windows the
adjuster actually rescans (each `Process` drains all but the newest
entry, so a rescan sees at most the retained entry plus the arrival):
each zero-flow entry adopts the other entry's flow when within
tolerance. -/
def specAdjustPair (tol : Nat) (a b : Bundle) : List Bundle :=
  [specNearestAdopt tol a b, specNearestAdopt tol b a]

/-! ### Concrete test inputs used by witnesses and counterexamples -/

/-- A concrete sample, parameterized by the fields the scenarios vary. -/
def mkTestSample (pid ip flow gso ifx proto : Nat) : Sample :=
  { tsc := 1000, cpu := 0, pid := pid, tid := 0, pmu_event := 1, ip := ip
  , data_addr := 0, flow_id := flow, gso_segs := gso, ingress_ifindex := ifx
  , numa_node := 0, l4_proto := proto, direction := 0, lbr_nr := 0 }

/-- A fresh aggregator with no symbolizer, window 100 ns, scale 1. -/
def mkTestAggregator (maxEntries : Nat) : AggregatorState :=
  { cfg := { time_window_ns := 100, max_entries := maxEntries }
  , symbolizer := none, table := [], sample_scale := 1 }

/-- A concrete sample for the skew-adjuster scenarios. -/
def mkSkewSample (cpu tsc flow : Nat) : Sample :=
  { tsc := tsc, cpu := cpu, pid := 0, tid := 0, pmu_event := 0, ip := 0, data_addr := 0
  , flow_id := flow, gso_segs := 0, ingress_ifindex := 0, numa_node := 0, l4_proto := 0
  , direction := 0, lbr_nr := 0 }

/-- A concrete false-sharing detector holding one stale line with hits
from two CPUs. -/
def fsTestState : FsDetectorState :=
  { window_ns := 10, threshold := 2
  , table := [(64,
      { total_hits := 3, last_tsc := 100, cpu_hits := [1, 2], pid_hits := [(5, 3)] })] }

/-- A calibrator configuration with both smoothing factors at 0.5. -/
def tscTestConfig : TscCalibrationConfig :=
  { enabled := true, slope_alpha := 1/2, offset_alpha := 1/2 }

/-- A fresh calibrator under `tscTestConfig`. -/
def tscTestState : TscCalibratorState :=
  { cfg := tscTestConfig, models := [] }

/-! ## Theorems -/

/-- Updating leaves the thresholds untouched. -/
theorem update_thresholds_eq (st : ModeControllerState) (now : Nat) (load_ratio : ℚ) :
    (st.update now load_ratio).thresholds = st.thresholds := by
  unfold ModeControllerState.update
  split
  · rfl
  · split <;> rfl

/-- NotifyAnomaly stores the signal timestamp (or the clock fallback)
unconditionally. -/
theorem notifyAnomaly_last (st : ModeControllerState) (sig : AnomalySignal) (now : Nat) :
    (st.notifyAnomaly sig now).last_anomaly_ns =
      (if sig.timestamp_ns ≠ 0 then sig.timestamp_ns else now) := by
  unfold ModeControllerState.notifyAnomaly
  cases sig.type <;> dsimp only <;> split <;> rfl

/-- NotifyAnomaly leaves the thresholds untouched. -/
theorem notifyAnomaly_thresholds_eq (st : ModeControllerState) (sig : AnomalySignal)
    (now : Nat) :
    (st.notifyAnomaly sig now).thresholds = st.thresholds := by
  unfold ModeControllerState.notifyAnomaly
  cases sig.type <;> dsimp only <;> split <;> rfl

/-- While the anomaly hold is active, Update keeps Diagnostic mode. -/
theorem update_diagnostic_hold (st : ModeControllerState) (now : Nat) (load_ratio : ℚ)
    (hmode : st.mode = AgentMode.Diagnostic)
    (hhold : st.anomalyHoldActive now = true) :
    (st.update now load_ratio).mode = AgentMode.Diagnostic := by
  unfold ModeControllerState.update
  rw [hmode]
  simp [hhold, hmode]

/-- C3 (amended): on `Update(load_ratio)`, Sentinel changes to Diagnostic
iff `load_ratio > sentinel_to_diag`, and Diagnostic changes to Sentinel
iff the anomaly hold is inactive and `load_ratio < diag_to_sentinel`; on
`NotifyAnomaly`, a ThroughputDrop signal with `0 < ratio <
throughput_ratio_trigger`, or a LatencySpike signal with `ratio >
latency_ratio_trigger`, sets the mode to Diagnostic.  (The amendment adds
the `0 < ratio` guard that `ModeController::NotifyAnomaly` places on the
ThroughputDrop trigger.) -/
theorem C3_mode_controller_transitions (st : ModeControllerState) (now : Nat)
    (load_ratio : ℚ) (sig : AnomalySignal) (tcall : Nat) :
    (st.mode = AgentMode.Sentinel →
      ((st.update now load_ratio).mode = AgentMode.Diagnostic ↔
        load_ratio > st.thresholds.sentinel_to_diag)) ∧
    (st.mode = AgentMode.Diagnostic →
      ((st.update now load_ratio).mode = AgentMode.Sentinel ↔
        (st.anomalyHoldActive now = false ∧ load_ratio < st.thresholds.diag_to_sentinel))) ∧
    (sig.type = AnomalyType.ThroughputDrop → 0 < sig.ratio →
      sig.ratio < st.thresholds.throughput_ratio_trigger →
      (st.notifyAnomaly sig tcall).mode = AgentMode.Diagnostic) ∧
    (sig.type = AnomalyType.LatencySpike →
      sig.ratio > st.thresholds.latency_ratio_trigger →
      (st.notifyAnomaly sig tcall).mode = AgentMode.Diagnostic) := by
  refine ⟨?_, ?_, ?_, ?_⟩
  · intro hmode
    unfold ModeControllerState.update
    rw [hmode]
    by_cases hl : load_ratio > st.thresholds.sentinel_to_diag
    · simp [hl]
    · simp [hl, hmode]
  · intro hmode
    unfold ModeControllerState.update
    rw [hmode]
    by_cases hh : st.anomalyHoldActive now = false
    · by_cases hl : load_ratio < st.thresholds.diag_to_sentinel
      · simp [hh, hl]
      · simp [hh, hl, hmode]
    · simp [hh, hmode]
  · intro htype hpos htrig
    unfold ModeControllerState.notifyAnomaly
    rw [htype]
    simp [hpos, htrig]
  · intro htype htrig
    unfold ModeControllerState.notifyAnomaly
    rw [htype]
    simp [htrig]

/-- Witness for C3: the four transition clauses at concrete inputs. -/
theorem C3_mode_controller_transitions_witness :
    ((mkModeController defaultThresholds).update 0 (12/10)).mode = AgentMode.Diagnostic ∧
    (({ mkModeController defaultThresholds with
        mode := AgentMode.Diagnostic }).update 7 1).mode = AgentMode.Sentinel ∧
    ((mkModeController defaultThresholds).notifyAnomaly
      { type := AnomalyType.ThroughputDrop, ratio := 1/2, value := 0, timestamp_ns := 3 }
      3).mode = AgentMode.Diagnostic ∧
    ((mkModeController defaultThresholds).notifyAnomaly
      { type := AnomalyType.LatencySpike, ratio := 2, value := 0, timestamp_ns := 3 }
      3).mode = AgentMode.Diagnostic := by
  refine ⟨?_, ?_, ?_, ?_⟩
  · exact ((C3_mode_controller_transitions (mkModeController defaultThresholds) 0 (12/10)
      { type := AnomalyType.ThroughputDrop, ratio := 1/2, value := 0, timestamp_ns := 3 }
      3).1 rfl).mpr (by norm_num [mkModeController, defaultThresholds])
  · exact ((C3_mode_controller_transitions
      ({ mkModeController defaultThresholds with mode := AgentMode.Diagnostic }) 7 1
      { type := AnomalyType.ThroughputDrop, ratio := 1/2, value := 0, timestamp_ns := 3 }
      3).2.1 rfl).mpr
      (by norm_num [mkModeController, defaultThresholds, ModeControllerState.anomalyHoldActive])
  · exact (C3_mode_controller_transitions (mkModeController defaultThresholds) 0 1
      { type := AnomalyType.ThroughputDrop, ratio := 1/2, value := 0, timestamp_ns := 3 }
      3).2.2.1 rfl (by norm_num) (by norm_num [mkModeController, defaultThresholds])
  · exact (C3_mode_controller_transitions (mkModeController defaultThresholds) 0 1
      { type := AnomalyType.LatencySpike, ratio := 2, value := 0, timestamp_ns := 3 }
      3).2.2.2 rfl (by norm_num [mkModeController, defaultThresholds])

/-- C3 counterexample: with the default thresholds, a ThroughputDrop
signal whose ratio is 0 (a complete throughput collapse) satisfies
`ratio < throughput_ratio_trigger`, yet `NotifyAnomaly` leaves the
controller in Sentinel mode because the code additionally requires
`ratio > 0`. -/
theorem C3_mode_controller_transitions_cex :
    (({ type := AnomalyType.ThroughputDrop, ratio := 0, value := 0,
        timestamp_ns := 1 } : AnomalySignal).ratio <
      (mkModeController defaultThresholds).thresholds.throughput_ratio_trigger) ∧
    ((mkModeController defaultThresholds).notifyAnomaly
      { type := AnomalyType.ThroughputDrop, ratio := 0, value := 0, timestamp_ns := 1 }
      5).mode ≠ AgentMode.Diagnostic := by
  constructor
  · norm_num [mkModeController, defaultThresholds]
  · norm_num [ModeControllerState.notifyAnomaly, mkModeController, defaultThresholds]
    decide

/-- C10: every `NotifyAnomaly` call stores the signal timestamp (or the
clock reading when the signal carries none) as the last-anomaly time,
even when no trigger fires, and for the whole quiet period measured from
that stored time, `Update` cannot bring a Diagnostic controller back to
Sentinel, however low the load ratio. -/
theorem C10_anomaly_hold_blocks_recovery (st : ModeControllerState) (sig : AnomalySignal)
    (tcall now : Nat) (load_ratio : ℚ)
    (hq : 0 < st.thresholds.anomaly_quiet_period_ms)
    (ht : 0 < tcall) :
    ((st.notifyAnomaly sig tcall).last_anomaly_ns =
      (if sig.timestamp_ns ≠ 0 then sig.timestamp_ns else tcall)) ∧
    ((st.notifyAnomaly sig tcall).mode = AgentMode.Diagnostic →
      (st.notifyAnomaly sig tcall).last_anomaly_ns ≤ now →
      now - (st.notifyAnomaly sig tcall).last_anomaly_ns <
        st.thresholds.anomaly_quiet_period_ms * 1000000 →
      (((st.notifyAnomaly sig tcall).update now load_ratio)).mode = AgentMode.Diagnostic) := by
  refine ⟨notifyAnomaly_last st sig tcall, ?_⟩
  intro hmode hle hwin
  have hlast := notifyAnomaly_last st sig tcall
  have hthr := notifyAnomaly_thresholds_eq st sig tcall
  have hpos : 0 < (st.notifyAnomaly sig tcall).last_anomaly_ns := by
    rw [hlast]
    split
    · rename_i h
      exact Nat.pos_of_ne_zero h
    · exact ht
  apply update_diagnostic_hold _ _ _ hmode
  unfold ModeControllerState.anomalyHoldActive
  rw [hthr]
  have hq6 : st.thresholds.anomaly_quiet_period_ms * 1000000 ≠ 0 :=
    Nat.mul_ne_zero hq.ne' (by norm_num)
  simp only [hq6, if_false]
  have hlz : (st.notifyAnomaly sig tcall).last_anomaly_ns ≠ 0 := hpos.ne'
  simp [hlz, hle, hwin]

/-- Witness for C10 at a concrete controller, signal, and clock. -/
theorem C10_anomaly_hold_blocks_recovery_witness :
    (({ mkModeController defaultThresholds with
        mode := AgentMode.Diagnostic }).notifyAnomaly
      { type := AnomalyType.LatencySpike, ratio := 1, value := 0, timestamp_ns := 0 }
      10).last_anomaly_ns = 10 ∧
    ((({ mkModeController defaultThresholds with
        mode := AgentMode.Diagnostic }).notifyAnomaly
      { type := AnomalyType.LatencySpike, ratio := 1, value := 0, timestamp_ns := 0 }
      10).update 20 0).mode = AgentMode.Diagnostic := by
  have h := C10_anomaly_hold_blocks_recovery
    ({ mkModeController defaultThresholds with mode := AgentMode.Diagnostic })
    { type := AnomalyType.LatencySpike, ratio := 1, value := 0, timestamp_ns := 0 }
    10 20 0 (by norm_num [mkModeController, defaultThresholds]) (by norm_num)
  refine ⟨by simpa using h.1, ?_⟩
  apply h.2
  · norm_num [ModeControllerState.notifyAnomaly, mkModeController, defaultThresholds]
  · simpa using le_of_eq_of_le h.1 (by norm_num)
  · rw [h.1]
    norm_num [mkModeController, defaultThresholds]

/-- C4: `MonitoringTargetManager::Allow` accepts everything when the
target list is empty; otherwise a present PID filter with a non-empty set
rejects samples whose pid is outside the set, and a present flow filter
accepts a sample iff the PID check passed and some flow target matches
on interface and protocol (with 0 as wildcard). -/
theorem C4_target_filter_semantics (cgroupPids : String → List Nat)
    (m : MonitoringTargetManager) (s : Sample) :
    ((MonitoringTargetManager.update cgroupPids []).allow s = true) ∧
    (m.allow_all = false → m.has_pid_filter = true → m.allowed_pids ≠ [] →
      s.pid ∉ m.allowed_pids → m.allow s = false) ∧
    (m.allow_all = false → m.has_flow_filter = true →
      (m.allow s = true ↔
        ((m.has_pid_filter = true → s.pid ∈ m.allowed_pids) ∧
          ∃ flow ∈ m.flow_targets,
            (flow.ingress_ifindex = 0 ∨ flow.ingress_ifindex = s.ingress_ifindex) ∧
            (flow.l4_proto = 0 ∨ flow.l4_proto = s.l4_proto)))) := by
  refine ⟨?_, ?_, ?_⟩
  · simp [MonitoringTargetManager.update, updateTargetsLoop, MonitoringTargetManager.allow]
  · intro hall hpid _ hmem
    simp [MonitoringTargetManager.allow, hall, hpid, hmem]
  · intro hall hflow
    by_cases hpid : m.has_pid_filter = true
    · by_cases hmem : s.pid ∈ m.allowed_pids
      · simp [MonitoringTargetManager.allow, hall, hpid, hmem, hflow, List.any_eq_true]
      · simp [MonitoringTargetManager.allow, hall, hpid, hmem, hflow]
    · simp only [Bool.not_eq_true] at hpid
      simp [MonitoringTargetManager.allow, hall, hpid, hflow, List.any_eq_true]

/-- Witness for C4: empty list accepts anything; a pid-only manager
rejects a foreign pid; a pid-and-flow manager accepts a matching sample. -/
theorem C4_target_filter_semantics_witness :
    ((MonitoringTargetManager.update (fun _ => []) []).allow
      { tsc := 0, cpu := 0, pid := 999, tid := 0, pmu_event := 0, ip := 0, data_addr := 0
      , flow_id := 0, gso_segs := 0, ingress_ifindex := 0, numa_node := 0, l4_proto := 0
      , direction := 0, lbr_nr := 0 } = true) ∧
    (MonitoringTargetManager.allow
      { allowed_pids := [123], flow_targets := [], allow_all := false
      , has_pid_filter := true, has_flow_filter := false }
      { tsc := 0, cpu := 0, pid := 999, tid := 0, pmu_event := 0, ip := 0, data_addr := 0
      , flow_id := 0, gso_segs := 0, ingress_ifindex := 0, numa_node := 0, l4_proto := 0
      , direction := 0, lbr_nr := 0 } = false) ∧
    (MonitoringTargetManager.allow
      { allowed_pids := [123], flow_targets := [{ ingress_ifindex := 2, l4_proto := 0 }]
      , allow_all := false, has_pid_filter := true, has_flow_filter := true }
      { tsc := 0, cpu := 0, pid := 123, tid := 0, pmu_event := 0, ip := 0, data_addr := 0
      , flow_id := 0, gso_segs := 0, ingress_ifindex := 2, numa_node := 0, l4_proto := 6
      , direction := 0, lbr_nr := 0 } = true) := by
  refine ⟨?_, ?_, ?_⟩
  · exact (C4_target_filter_semantics (fun _ => [])
      { allowed_pids := [], flow_targets := [], allow_all := true
      , has_pid_filter := false, has_flow_filter := false }
      { tsc := 0, cpu := 0, pid := 999, tid := 0, pmu_event := 0, ip := 0, data_addr := 0
      , flow_id := 0, gso_segs := 0, ingress_ifindex := 0, numa_node := 0, l4_proto := 0
      , direction := 0, lbr_nr := 0 }).1
  · exact (C4_target_filter_semantics (fun _ => [])
      { allowed_pids := [123], flow_targets := [], allow_all := false
      , has_pid_filter := true, has_flow_filter := false }
      { tsc := 0, cpu := 0, pid := 999, tid := 0, pmu_event := 0, ip := 0, data_addr := 0
      , flow_id := 0, gso_segs := 0, ingress_ifindex := 0, numa_node := 0, l4_proto := 0
      , direction := 0, lbr_nr := 0 }).2.1 rfl rfl (by decide) (by decide)
  · exact ((C4_target_filter_semantics (fun _ => [])
      { allowed_pids := [123], flow_targets := [{ ingress_ifindex := 2, l4_proto := 0 }]
      , allow_all := false, has_pid_filter := true, has_flow_filter := true }
      { tsc := 0, cpu := 0, pid := 123, tid := 0, pmu_event := 0, ip := 0, data_addr := 0
      , flow_id := 0, gso_segs := 0, ingress_ifindex := 2, numa_node := 0, l4_proto := 6
      , direction := 0, lbr_nr := 0 }).2.2 rfl rfl).mpr
      ⟨fun _ => by decide, { ingress_ifindex := 2, l4_proto := 0 }, by decide, by decide⟩

/-! ### Bucket-update lemmas (C7) -/

/-- A sentinel-only write leaves the state with
`diagnostic_budget ≥ sentinel_budget` (auto-lift). -/
theorem applyBucketUpdate_sentinel_only (req : BucketUpdateRequest) (mode : AgentMode)
    (st : BucketState) (hs : writesSentinel req = true) (hd : writesDiagnostic req = false) :
    (applyBucketUpdate req mode st).2.sentinel_budget ≤
      (applyBucketUpdate req mode st).2.diagnostic_budget := by
  unfold applyBucketUpdate
  unfold writesSentinel at hs
  unfold writesDiagnostic at hd
  simp only [hs, hd, if_true, if_false, Bool.false_and, Bool.true_and, Bool.not_false]
  by_cases hlift : st.diagnostic_budget < req.sentinel_budget
  · simp [hlift]
    split <;> simp
  · simp [hlift]
    split <;> simp <;> omega

/-- A request writing neither budget leaves both budgets unchanged. -/
theorem applyBucketUpdate_budgets_frame (req : BucketUpdateRequest) (mode : AgentMode)
    (st : BucketState) (hs : writesSentinel req = false) (hd : writesDiagnostic req = false) :
    (applyBucketUpdate req mode st).2.sentinel_budget = st.sentinel_budget ∧
    (applyBucketUpdate req mode st).2.diagnostic_budget = st.diagnostic_budget := by
  unfold applyBucketUpdate
  unfold writesSentinel at hs
  unfold writesDiagnostic at hd
  simp only [hs, hd, if_false, Bool.false_and, Bool.and_false]
  split <;> simp

/-- A sequence of requests writing neither budget preserves both budgets. -/
theorem applyBucketSeq_budgets_frame (seq : List (BucketUpdateRequest × AgentMode)) :
    ∀ st : BucketState, (∀ q ∈ seq, writesSentinel q.1 = false ∧ writesDiagnostic q.1 = false) →
    (applyBucketSeq st seq).sentinel_budget = st.sentinel_budget ∧
    (applyBucketSeq st seq).diagnostic_budget = st.diagnostic_budget := by
  induction seq with
  | nil => intro st _; exact ⟨rfl, rfl⟩
  | cons q rest ih =>
    intro st hq
    have hhead := hq q (List.mem_cons_self q rest)
    have hframe := applyBucketUpdate_budgets_frame q.1 q.2 st hhead.1 hhead.2
    have htail := ih (applyBucketUpdate q.1 q.2 st).2
      (fun r hr => hq r (List.mem_cons_of_mem q hr))
    unfold applyBucketSeq
    constructor
    · rw [htail.1, hframe.1]
    · rw [htail.2, hframe.2]

/-- Splitting `applyBucketSeq` over an append. -/
theorem applyBucketSeq_append (xs ys : List (BucketUpdateRequest × AgentMode)) :
    ∀ st : BucketState, applyBucketSeq st (xs ++ ys) = applyBucketSeq (applyBucketSeq st xs) ys := by
  induction xs with
  | nil => intro st; rfl
  | cons x rest ih =>
    intro st
    simp only [List.cons_append, applyBucketSeq]
    exact ih (applyBucketUpdate x.1 x.2 st).2

/-- C7 (amended): after a bucket-update sequence,
`diagnostic_budget ≥ sentinel_budget` holds whenever the last request
that wrote `sentinel_budget` carried no accompanying diagnostic update
and no later request wrote `diagnostic_budget` either; and
`reprogram_required` is true iff the request wrote the hard-drop value or
wrote the budget of the active arm (for Diagnostic mode including the
automatic lift caused by a sentinel-only write).  (The amendments: a later
diagnostic-only request may legally drop `diagnostic_budget` below
`sentinel_budget`, and `reprogram_required` tracks writes rather than
value changes.) -/
theorem C7_bucket_update_invariant (init : BucketState)
    (pre post : List (BucketUpdateRequest × AgentMode))
    (r : BucketUpdateRequest) (rmode : AgentMode)
    (req : BucketUpdateRequest) (mode : AgentMode) (st : BucketState)
    (hr : writesSentinel r = true) (hrd : writesDiagnostic r = false)
    (hpost : ∀ q ∈ post, writesSentinel q.1 = false ∧ writesDiagnostic q.1 = false) :
    ((applyBucketSeq init (pre ++ (r, rmode) :: post)).sentinel_budget ≤
      (applyBucketSeq init (pre ++ (r, rmode) :: post)).diagnostic_budget) ∧
    ((applyBucketUpdate req mode st).1.reprogram_required =
      (writesHardDrop req ||
        (match mode with
         | AgentMode.Sentinel => writesSentinel req
         | AgentMode.Diagnostic =>
             writesDiagnostic req ||
             (writesSentinel req && !writesDiagnostic req &&
               decide (st.diagnostic_budget < req.sentinel_budget))))) := by
  constructor
  · rw [applyBucketSeq_append]
    set mid := applyBucketSeq init pre with hmid
    show (applyBucketSeq mid ((r, rmode) :: post)).sentinel_budget ≤
      (applyBucketSeq mid ((r, rmode) :: post)).diagnostic_budget
    unfold applyBucketSeq
    have hframe := applyBucketSeq_budgets_frame post (applyBucketUpdate r rmode mid).2 hpost
    rw [hframe.1, hframe.2]
    exact applyBucketUpdate_sentinel_only r rmode mid hr hrd
  · unfold applyBucketUpdate writesSentinel writesDiagnostic writesHardDrop
    cases mode <;>
      by_cases hs : (req.has_sentinel && decide (req.sentinel_budget > 0)) = true <;>
      by_cases hd : (req.has_diagnostic && decide (req.diagnostic_budget > 0)) = true <;>
      by_cases hlift : st.diagnostic_budget < req.sentinel_budget <;>
      simp [hs, hd, hlift]

/-- Witness for C7 at the concrete sequence of the S4 scenario. -/
theorem C7_bucket_update_invariant_witness :
    ((applyBucketSeq { sentinel_budget := 1000, diagnostic_budget := 4000, hard_drop_ns := 8000 }
      ([] ++ ({ has_sentinel := true, sentinel_budget := 1500, has_diagnostic := false
              , diagnostic_budget := 0, has_hard_drop := false, hard_drop_ns := 0 },
              AgentMode.Sentinel) :: [])).sentinel_budget ≤
      (applyBucketSeq { sentinel_budget := 1000, diagnostic_budget := 4000, hard_drop_ns := 8000 }
      ([] ++ ({ has_sentinel := true, sentinel_budget := 1500, has_diagnostic := false
              , diagnostic_budget := 0, has_hard_drop := false, hard_drop_ns := 0 },
              AgentMode.Sentinel) :: [])).diagnostic_budget) ∧
    ((applyBucketUpdate
      { has_sentinel := true, sentinel_budget := 1500, has_diagnostic := false
      , diagnostic_budget := 0, has_hard_drop := false, hard_drop_ns := 0 }
      AgentMode.Sentinel
      { sentinel_budget := 1000, diagnostic_budget := 4000, hard_drop_ns := 8000 }
     ).1.reprogram_required = true) := by
  have h := C7_bucket_update_invariant
    { sentinel_budget := 1000, diagnostic_budget := 4000, hard_drop_ns := 8000 } [] []
    { has_sentinel := true, sentinel_budget := 1500, has_diagnostic := false
    , diagnostic_budget := 0, has_hard_drop := false, hard_drop_ns := 0 }
    AgentMode.Sentinel
    { has_sentinel := true, sentinel_budget := 1500, has_diagnostic := false
    , diagnostic_budget := 0, has_hard_drop := false, hard_drop_ns := 0 }
    AgentMode.Sentinel
    { sentinel_budget := 1000, diagnostic_budget := 4000, hard_drop_ns := 8000 }
    (by decide) (by decide) (by intro q hq; cases hq)
  exact ⟨h.1, by rw [h.2]; decide⟩

/-- C7 counterexample: starting from `{sentinel=1, diagnostic=1}`, the
sequence `{sentinel:=1000}` then `{diagnostic:=500}` ends with
`diagnostic_budget = 500 < 1000 = sentinel_budget`, although the last
request that changed the sentinel budget carried no diagnostic update;
and re-sending the current sentinel value under Sentinel mode reports
`reprogram_required` although no stored value changed. -/
theorem C7_bucket_update_invariant_cex :
    (writesSentinel { has_sentinel := true, sentinel_budget := 1000, has_diagnostic := false
                    , diagnostic_budget := 0, has_hard_drop := false, hard_drop_ns := 0 } = true) ∧
    (writesDiagnostic { has_sentinel := true, sentinel_budget := 1000, has_diagnostic := false
                      , diagnostic_budget := 0, has_hard_drop := false, hard_drop_ns := 0 } = false) ∧
    (writesSentinel { has_sentinel := false, sentinel_budget := 0, has_diagnostic := true
                    , diagnostic_budget := 500, has_hard_drop := false, hard_drop_ns := 0 } = false) ∧
    ((applyBucketSeq { sentinel_budget := 1, diagnostic_budget := 1, hard_drop_ns := 0 }
      [({ has_sentinel := true, sentinel_budget := 1000, has_diagnostic := false
        , diagnostic_budget := 0, has_hard_drop := false, hard_drop_ns := 0 }, AgentMode.Sentinel),
       ({ has_sentinel := false, sentinel_budget := 0, has_diagnostic := true
        , diagnostic_budget := 500, has_hard_drop := false, hard_drop_ns := 0 }, AgentMode.Sentinel)]
     ).diagnostic_budget <
     (applyBucketSeq { sentinel_budget := 1, diagnostic_budget := 1, hard_drop_ns := 0 }
      [({ has_sentinel := true, sentinel_budget := 1000, has_diagnostic := false
        , diagnostic_budget := 0, has_hard_drop := false, hard_drop_ns := 0 }, AgentMode.Sentinel),
       ({ has_sentinel := false, sentinel_budget := 0, has_diagnostic := true
        , diagnostic_budget := 500, has_hard_drop := false, hard_drop_ns := 0 }, AgentMode.Sentinel)]
     ).sentinel_budget) ∧
    ((applyBucketUpdate
      { has_sentinel := true, sentinel_budget := 1000, has_diagnostic := false
      , diagnostic_budget := 0, has_hard_drop := false, hard_drop_ns := 0 }
      AgentMode.Sentinel
      { sentinel_budget := 1000, diagnostic_budget := 2000, hard_drop_ns := 0 }).2 =
      { sentinel_budget := 1000, diagnostic_budget := 2000, hard_drop_ns := 0 }) ∧
    ((applyBucketUpdate
      { has_sentinel := true, sentinel_budget := 1000, has_diagnostic := false
      , diagnostic_budget := 0, has_hard_drop := false, hard_drop_ns := 0 }
      AgentMode.Sentinel
      { sentinel_budget := 1000, diagnostic_budget := 2000, hard_drop_ns := 0 }
     ).1.reprogram_required = true) := by
  decide

/-! ### Aggregator lemmas (C1, C2) -/

/-- Folding the sample counter from an arbitrary accumulator. -/
theorem foldl_add_samples (t : List (AggregationKey × AggregatedValue)) :
    ∀ a : Nat, t.foldl (fun acc kv => acc + kv.2.samples) a =
      a + t.foldl (fun acc kv => acc + kv.2.samples) 0 := by
  induction t with
  | nil => intro a; simp
  | cons kv rest ih =>
    intro a
    simp only [List.foldl]
    rw [ih (a + kv.2.samples), ih (0 + kv.2.samples)]
    omega

/-- Cons rule for `sumSamples`. -/
theorem sumSamples_cons (kv : AggregationKey × AggregatedValue)
    (t : List (AggregationKey × AggregatedValue)) :
    sumSamples (kv :: t) = kv.2.samples + sumSamples t := by
  unfold sumSamples
  simp only [List.foldl]
  rw [foldl_add_samples t (0 + kv.2.samples)]
  omega

/-- Folding the cost sum from an arbitrary accumulator. -/
theorem foldl_add_norm (t : List (AggregationKey × AggregatedValue)) :
    ∀ a : ℚ, t.foldl (fun acc kv => acc + kv.2.norm_cost) a =
      a + t.foldl (fun acc kv => acc + kv.2.norm_cost) 0 := by
  induction t with
  | nil => intro a; simp
  | cons kv rest ih =>
    intro a
    simp only [List.foldl]
    rw [ih (a + kv.2.norm_cost), ih (0 + kv.2.norm_cost)]
    ring

/-- Cons rule for `sumNormCost`. -/
theorem sumNormCost_cons (kv : AggregationKey × AggregatedValue)
    (t : List (AggregationKey × AggregatedValue)) :
    sumNormCost (kv :: t) = kv.2.norm_cost + sumNormCost t := by
  unfold sumNormCost
  simp only [List.foldl]
  rw [foldl_add_norm t (0 + kv.2.norm_cost)]
  ring

/-- Each table bump adds exactly one to the sample total. -/
theorem bumpTable_sumSamples (k : AggregationKey) (w : ℚ) :
    ∀ t : List (AggregationKey × AggregatedValue),
    sumSamples (bumpTable t k w) = sumSamples t + 1 := by
  intro t
  induction t with
  | nil => simp [bumpTable, sumSamples_cons, sumSamples]
  | cons kv rest ih =>
    rcases kv with ⟨k0, v0⟩
    simp only [bumpTable]
    by_cases hk : k0 = k
    · rw [if_pos hk, sumSamples_cons, sumSamples_cons]
      dsimp only
      omega
    · rw [if_neg hk, sumSamples_cons, sumSamples_cons, ih]
      omega

/-- Each table bump adds exactly the weight to the cost total. -/
theorem bumpTable_sumNormCost (k : AggregationKey) (w : ℚ) :
    ∀ t : List (AggregationKey × AggregatedValue),
    sumNormCost (bumpTable t k w) = sumNormCost t + w := by
  intro t
  induction t with
  | nil => simp [bumpTable, sumNormCost_cons, sumNormCost]
  | cons kv rest ih =>
    rcases kv with ⟨k0, v0⟩
    simp only [bumpTable]
    by_cases hk : k0 = k
    · rw [if_pos hk, sumNormCost_cons, sumNormCost_cons]
      dsimp only
      ring
    · rw [if_neg hk, sumNormCost_cons, sumNormCost_cons, ih]
      ring

/-- When the overflow clear does not fire, `AddSample` leaves exactly the
bumped table behind. -/
theorem addSample_table_of_fits (st : AggregatorState) (s : Sample) (lbr : LbrStack)
    (hle : (bumpTable st.table (st.mkKey s lbr) (st.sampleWeight s)).length ≤
      st.cfg.max_entries) :
    (st.addSample s lbr).table = bumpTable st.table (st.mkKey s lbr) (st.sampleWeight s) := by
  unfold AggregatorState.addSample
  simp [Nat.not_lt.mpr hle]

/-- Under `noShed`, folding a stream through `AddSample` adds the stream
length to the sample total. -/
theorem addAll_sumSamples (stream : List (Sample × LbrStack)) :
    ∀ st : AggregatorState, st.noShed stream = true →
    sumSamples (st.addAll stream).table = sumSamples st.table + stream.length := by
  induction stream with
  | nil => intro st _; simp [AggregatorState.addAll]
  | cons e rest ih =>
    intro st h
    rcases e with ⟨s, lbr⟩
    simp only [AggregatorState.noShed, Bool.and_eq_true, decide_eq_true_eq] at h
    simp only [AggregatorState.addAll]
    rw [ih _ h.2, addSample_table_of_fits st s lbr h.1, bumpTable_sumSamples]
    simp only [List.length_cons]
    omega

/-- C1 (amended): `Flush` hands the callback exactly the table entries
(each once, in table order), leaves an empty table behind, and returns
the sum of `value.samples` over the emitted entries; provided no
`AddSample` since the previous flush triggered the overflow clear
(`table_.size() > max_entries`), that total equals the number of samples
accepted by `AddSample` since the previous flush.  (The amendment adds
the no-overflow proviso: the clear silently discards accepted samples.) -/
theorem C1_flush_totals (st : AggregatorState) (stream : List (Sample × LbrStack))
    (h0 : st.table = []) (hns : st.noShed stream = true) :
    ((st.addAll stream).flush.emitted = (st.addAll stream).table) ∧
    ((st.addAll stream).flush.state.table = []) ∧
    ((st.addAll stream).flush.total = sumSamples (st.addAll stream).flush.emitted) ∧
    ((st.addAll stream).flush.total = stream.length) := by
  refine ⟨rfl, rfl, rfl, ?_⟩
  show sumSamples (st.addAll stream).table = stream.length
  rw [addAll_sumSamples stream st hns, h0]
  simp [sumSamples]

/-- Witness for C1: two distinct-key samples through a roomy aggregator. -/
theorem C1_flush_totals_witness :
    ((mkTestAggregator 10).addAll
      [(mkTestSample 100 4660 7 1 0 0, []), (mkTestSample 100 4661 8 1 0 0, [])]).flush.total
      = 2 := by
  have h := C1_flush_totals (mkTestAggregator 10)
    [(mkTestSample 100 4660 7 1 0 0, []), (mkTestSample 100 4661 8 1 0 0, [])]
    rfl (by decide)
  exact h.2.2.2

/-- C1 counterexample: with `max_entries = 0` the overflow clear fires on
the very first `AddSample`, so the next `Flush` returns 0 although one
sample was accepted since the previous flush. -/
theorem C1_flush_totals_cex :
    ((mkTestAggregator 0).addAll [(mkTestSample 100 4660 7 1 0 0, [])]).flush.total = 0 ∧
    (([(mkTestSample 100 4660 7 1 0 0, ([] : LbrStack))] :
      List (Sample × LbrStack)).length = 1) ∧
    (0 : Nat) ≠ 1 := by
  refine ⟨by decide, rfl, by decide⟩

/-- The per-sample weight is the stored scale divided by
`max(gso_segs, 1)`. -/
theorem sampleWeight_eq (st : AggregatorState) (s : Sample) :
    st.sampleWeight s = st.sample_scale / ((max s.gso_segs 1 : Nat) : ℚ) := by
  unfold AggregatorState.sampleWeight
  by_cases hg : s.gso_segs > 1
  · rw [if_pos hg, max_eq_left (Nat.le_of_lt hg)]
  · rw [if_neg hg, max_eq_right (Nat.le_of_not_lt hg)]
    norm_num

/-- `AddSample` leaves the stored scale unchanged. -/
theorem addSample_scale (st : AggregatorState) (s : Sample) (lbr : LbrStack) :
    (st.addSample s lbr).sample_scale = st.sample_scale := rfl

/-- A weight-1 bump preserves the per-entry `norm_cost = samples`
invariant. -/
theorem bumpTable_normEq (k : AggregationKey) :
    ∀ t : List (AggregationKey × AggregatedValue),
    (∀ kv ∈ t, kv.2.norm_cost = (kv.2.samples : ℚ)) →
    ∀ kv ∈ bumpTable t k 1, kv.2.norm_cost = (kv.2.samples : ℚ) := by
  intro t
  induction t with
  | nil =>
    intro _ kv hkv
    simp only [bumpTable, List.mem_singleton] at hkv
    subst hkv
    norm_num
  | cons kv0 rest ih =>
    intro hinv kv hkv
    rcases kv0 with ⟨k0, v0⟩
    simp only [bumpTable] at hkv
    by_cases hk : k0 = k
    · rw [if_pos hk] at hkv
      rcases List.mem_cons.mp hkv with hkv | hkv
      · subst hkv
        have h0 : v0.norm_cost = (v0.samples : ℚ) :=
          hinv (k0, v0) (List.mem_cons_self _ _)
        show v0.norm_cost + 1 = ((v0.samples + 1 : Nat) : ℚ)
        push_cast
        rw [h0]
      · exact hinv kv (List.mem_cons_of_mem _ hkv)
    · rw [if_neg hk] at hkv
      rcases List.mem_cons.mp hkv with hkv | hkv
      · subst hkv
        exact hinv (k0, v0) (List.mem_cons_self _ _)
      · exact ih (fun e he => hinv e (List.mem_cons_of_mem _ he)) kv hkv

/-- The invariant survives a whole gso=1, scale=1 stream. -/
theorem addAll_normEq (stream : List (Sample × LbrStack)) :
    ∀ st : AggregatorState, st.sample_scale = 1 →
    (∀ e ∈ stream, (e.1).gso_segs = 1) →
    (∀ kv ∈ st.table, kv.2.norm_cost = (kv.2.samples : ℚ)) →
    ∀ kv ∈ (st.addAll stream).table, kv.2.norm_cost = (kv.2.samples : ℚ) := by
  induction stream with
  | nil => intro st _ _ hinv; exact hinv
  | cons e rest ih =>
    intro st hscale hgso hinv
    rcases e with ⟨s, lbr⟩
    simp only [AggregatorState.addAll]
    apply ih _ (by rw [addSample_scale]; exact hscale)
      (fun e he => hgso e (List.mem_cons_of_mem _ he))
    have hw : st.sampleWeight s = 1 := by
      have hg : s.gso_segs = 1 := hgso (s, lbr) (List.mem_cons_self _ _)
      unfold AggregatorState.sampleWeight
      rw [hg]
      simp [hscale]
    intro kv hkv
    simp only [AggregatorState.addSample] at hkv
    split at hkv
    · cases hkv
    · rw [hw] at hkv
      exact bumpTable_normEq (st.mkKey s lbr) st.table hinv kv hkv

/-- Pointwise `norm_cost = samples` gives equal totals. -/
theorem sumNormCost_eq_sumSamples (t : List (AggregationKey × AggregatedValue))
    (hinv : ∀ kv ∈ t, kv.2.norm_cost = (kv.2.samples : ℚ)) :
    sumNormCost t = (sumSamples t : ℚ) := by
  induction t with
  | nil => simp [sumNormCost, sumSamples]
  | cons kv rest ih =>
    rw [sumNormCost_cons, sumSamples_cons,
      hinv kv (List.mem_cons_self _ _),
      ih (fun e he => hinv e (List.mem_cons_of_mem _ he))]
    push_cast
    ring

/-- C2: each `AddSample` adds exactly `sample_scale / max(gso_segs, 1)`
to the aggregate `norm_cost`; consequently a stream with `gso_segs = 1`
throughout and stored scale 1.0 flushes a total `norm_cost` equal to the
total `samples`. -/
theorem C2_gso_normalization (st : AggregatorState) (s : Sample) (lbr : LbrStack)
    (stream : List (Sample × LbrStack)) :
    (sumNormCost (bumpTable st.table (st.mkKey s lbr) (st.sampleWeight s)) =
      sumNormCost st.table + st.sample_scale / ((max s.gso_segs 1 : Nat) : ℚ)) ∧
    (st.table = [] → st.sample_scale = 1 → (∀ e ∈ stream, (e.1).gso_segs = 1) →
      sumNormCost (st.addAll stream).flush.emitted =
        (sumSamples (st.addAll stream).flush.emitted : ℚ)) := by
  constructor
  · rw [bumpTable_sumNormCost, sampleWeight_eq]
  · intro h0 hscale hgso
    apply sumNormCost_eq_sumSamples
    apply addAll_normEq stream st hscale hgso
    rw [h0]
    intro kv hkv
    cases hkv

/-- Witness for C2 at a concrete one-sample stream. -/
theorem C2_gso_normalization_witness :
    sumNormCost ((mkTestAggregator 10).addAll
      [(mkTestSample 100 4660 7 1 0 0, [])]).flush.emitted =
    (sumSamples ((mkTestAggregator 10).addAll
      [(mkTestSample 100 4660 7 1 0 0, [])]).flush.emitted : ℚ) := by
  exact (C2_gso_normalization (mkTestAggregator 10) (mkTestSample 100 4660 7 1 0 0) []
    [(mkTestSample 100 4660 7 1 0 0, [])]).2 rfl rfl (by decide)
/-! ### Skew-adjuster frame property (C6) -/

/-- Overwriting the flow_id twice keeps only the last write. -/
theorem setFlow_setFlow (s : Sample) (f g : Nat) :
    ({ { s with flow_id := f } with flow_id := g } : Sample) = { s with flow_id := g } := rfl

/-- The except-flow relation is reflexive. -/
theorem exceptFlow_refl (a : Bundle) : exceptFlow a a := ⟨rfl, rfl⟩

/-- Rewriting a bundle's flow_id preserves the except-flow relation. -/
theorem exceptFlow_setFlow (a b : Bundle) (f : Nat) (h : exceptFlow a b) :
    exceptFlow a { b with sample := { b.sample with flow_id := f } } := by
  obtain ⟨hs, hm⟩ := h
  refine ⟨hs, ?_⟩
  show { b.sample with flow_id := f } = { a.sample with flow_id := f }
  rw [hm]

/-- One `AdjustWindow` loop iteration only rewrites flow ids. -/
theorem adjustStep_frame (tol : Nat) (es0 es : List Bundle) (i : Nat)
    (h : List.Forall₂ exceptFlow es0 es) :
    List.Forall₂ exceptFlow es0 (adjustStep tol es i) := by
  rcases hgi : es[i]? with _ | b
  · simp only [adjustStep, hgi]
    exact h
  · simp only [adjustStep, hgi]
    by_cases hf : b.sample.flow_id ≠ 0
    · simp only [if_pos hf]
      exact h
    · simp only [if_neg hf]
      by_cases hb : (scanCandidates tol b.sample.tsc (es.drop (i + 1))
          (scanCandidates tol b.sample.tsc ((es.take i).reverse) (0, tol + 1))).1 ≠ 0
      · simp only [if_pos hb]
        apply List.forall₂_of_length_eq_of_get
        · rw [List.length_set]
          exact h.length_eq
        · intro j h1 h2
          have hjlen : j < es.length := by rwa [List.length_set] at h2
          by_cases hj : j = i
          · subst hj
            have hbj : es[j] = b := by
              have h3 := hgi
              rw [List.getElem?_eq_getElem hjlen] at h3
              exact Option.some.inj h3
            simp only [List.get_eq_getElem, List.getElem_set_self]
            have hrel : exceptFlow (es0.get ⟨j, h1⟩) b := by
              have := h.get h1 hjlen
              rwa [List.get_eq_getElem es ⟨j, hjlen⟩, hbj] at this
            simpa [List.get_eq_getElem] using exceptFlow_setFlow _ b _ hrel
          · simp only [List.get_eq_getElem, List.getElem_set_ne (Ne.symm hj)]
            have := h.get h1 hjlen
            simpa [List.get_eq_getElem] using this
      · simp only [if_neg hb]
        exact h

/-- The whole rescan loop only rewrites flow ids. -/
theorem foldl_adjustStep_frame (tol : Nat) (idxs : List Nat) :
    ∀ es0 es : List Bundle, List.Forall₂ exceptFlow es0 es →
    List.Forall₂ exceptFlow es0 (idxs.foldl (adjustStep tol) es) := by
  induction idxs with
  | nil => intro es0 es h; exact h
  | cons i rest ih =>
    intro es0 es h
    exact ih es0 _ (adjustStep_frame tol es0 es i h)

/-- C6: `AdjustWindow` modifies at most the flow_id of each queued
bundle: the rescanned window is pointwise identical to the input window
in every sample field other than flow_id, and in the branch stack. -/
theorem C6_backfill_frame (tol : Nat) (es : List Bundle) :
    List.Forall₂ exceptFlow es (adjustWindow tol es) := by
  unfold adjustWindow
  by_cases hlen : es.length < 2
  · simp only [if_pos hlen]
    exact List.forall₂_same.mpr (fun x _ => exceptFlow_refl x)
  · simp only [if_neg hlen]
    exact foldl_adjustStep_frame tol (List.range es.length) es es
      (List.forall₂_same.mpr (fun x _ => exceptFlow_refl x))

/-! ### Skew-adjuster back-fill (C5) -/

/-- The timestamp distance is symmetric. -/
theorem absDiff_comm (a b : Nat) : absDiff a b = absDiff b a := by
  unfold absDiff
  split <;> split <;> omega

/-- The rescan of a two-entry window (the only shape `Process` ever
rescans: each call drains all but the newest entry) matches the claim's
rule: a zero-flow entry adopts the other entry's non-zero flow_id iff
their timestamps differ by at most the tolerance. -/
theorem adjustWindow_pair (tol : Nat) (a b : Bundle) :
    adjustWindow tol [a, b] = specAdjustPair tol a b := by
  have hlen : ¬ ([a, b].length < 2) := by simp
  unfold adjustWindow
  rw [if_neg hlen]
  show List.foldl (adjustStep tol) [a, b] (List.range 2) = specAdjustPair tol a b
  rw [show List.range 2 = [0, 1] from by decide]
  simp only [List.foldl]
  by_cases ha : a.sample.flow_id = 0 <;> by_cases hb : b.sample.flow_id = 0
  · simp [adjustStep, scanCandidates, specAdjustPair, specNearestAdopt, ha, hb]
  · by_cases hd : absDiff b.sample.tsc a.sample.tsc > tol
    · have hd' : absDiff a.sample.tsc b.sample.tsc > tol := by rwa [absDiff_comm]
      have hle : ¬ absDiff a.sample.tsc b.sample.tsc ≤ tol := by omega
      have hle' : ¬ absDiff b.sample.tsc a.sample.tsc ≤ tol := by omega
      simp [adjustStep, scanCandidates, specAdjustPair, specNearestAdopt, ha, hb, hd, hd',
        hle, hle']
    · have hd' : ¬ absDiff a.sample.tsc b.sample.tsc > tol := by rwa [absDiff_comm]
      have hd2 : absDiff b.sample.tsc a.sample.tsc < tol + 1 := by omega
      have hd2' : absDiff a.sample.tsc b.sample.tsc < tol + 1 := by rwa [absDiff_comm]
      have hle : absDiff a.sample.tsc b.sample.tsc ≤ tol := by omega
      have hle' : absDiff b.sample.tsc a.sample.tsc ≤ tol := by omega
      simp [adjustStep, scanCandidates, specAdjustPair, specNearestAdopt, ha, hb, hd, hd',
        hd2, hd2', hle, hle']
  · by_cases hd : absDiff a.sample.tsc b.sample.tsc > tol
    · have hd' : absDiff b.sample.tsc a.sample.tsc > tol := by rwa [absDiff_comm]
      have hle : ¬ absDiff a.sample.tsc b.sample.tsc ≤ tol := by omega
      have hle' : ¬ absDiff b.sample.tsc a.sample.tsc ≤ tol := by omega
      simp [adjustStep, scanCandidates, specAdjustPair, specNearestAdopt, ha, hb, hd, hd',
        hle, hle']
    · have hd' : ¬ absDiff b.sample.tsc a.sample.tsc > tol := by rwa [absDiff_comm]
      have hd2 : absDiff a.sample.tsc b.sample.tsc < tol + 1 := by omega
      have hd2' : absDiff b.sample.tsc a.sample.tsc < tol + 1 := by rwa [absDiff_comm]
      have hle : absDiff a.sample.tsc b.sample.tsc ≤ tol := by omega
      have hle' : absDiff b.sample.tsc a.sample.tsc ≤ tol := by omega
      simp [adjustStep, scanCandidates, specAdjustPair, specNearestAdopt, ha, hb, hd, hd',
        hd2, hd2', hle, hle']
  · simp [adjustStep, scanCandidates, specAdjustPair, specNearestAdopt, ha, hb]

/-- C5: the rescan adopts the nearest in-tolerance non-zero flow_id for
zero-flow entries (stated for the two-entry windows the adjuster
rescans), and the concrete scenario holds: pushing `{cpu=0,tsc=100,flow=0}`
then `{cpu=0,tsc=120,flow=42}` with tolerance 2000 and flushing emits
`{tsc=100,flow=42}` then `{tsc=120,flow=42}`, in insertion order. -/
theorem C5_skew_backfill :
    (∀ (tol : Nat) (a b : Bundle), adjustWindow tol [a, b] = specAdjustPair tol a b) ∧
    (let p1 := (mkSkewAdjuster 2000 4).process (mkSkewSample 0 100 0) []
     let p2 := p1.1.process (mkSkewSample 0 120 42) []
     let p3 := p2.1.flushAll
     p1.2 ++ p2.2 ++ p3.2 =
       [Bundle.mk (mkSkewSample 0 100 42) [], Bundle.mk (mkSkewSample 0 120 42) []]) := by
  constructor
  · exact adjustWindow_pair
  · decide

/-! ### False-sharing flush filters (C8) -/

/-- C8: a finding is only emitted for a line whose entry is stale by more
than the window relative to `now_tsc` and that passes all three filters:
total hits at or above the threshold, at least two CPUs with non-zero
hits, and a maximum single-CPU share strictly below 0.9 of the total. -/
theorem C8_fs_flush_filters (st : FsDetectorState) (now_tsc : Nat) (f : FalseSharingFinding)
    (hpast : ∀ e ∈ st.table, e.2.last_tsc ≤ now_tsc ∧ 0 < e.2.total_hits)
    (hf : f ∈ (st.flush now_tsc).2) :
    ∃ e ∈ st.table, e.1 = f.line_addr ∧ now_tsc - e.2.last_tsc > st.window_ns ∧
      st.threshold ≤ f.total_hits ∧ 2 ≤ activeCpus f.cpu_hits ∧
      (maxCpuHits f.cpu_hits : ℚ) / (f.total_hits : ℚ) < 9/10 := by
  unfold FsDetectorState.flush at hf
  simp only [List.mem_filterMap] at hf
  obtain ⟨e, he, hfind⟩ := hf
  rw [List.mem_filter] at he
  obtain ⟨hmem, hexp⟩ := he
  have hstale : usub64 now_tsc e.2.last_tsc > st.window_ns := of_decide_eq_true hexp
  have hle : e.2.last_tsc ≤ now_tsc := (hpast e hmem).1
  have hstale2 : now_tsc - e.2.last_tsc > st.window_ns := by
    unfold usub64 at hstale
    rwa [if_pos hle] at hstale
  unfold fsFinding at hfind
  by_cases h1 : e.2.total_hits < st.threshold
  · simp [h1] at hfind
  · by_cases h2 : activeCpus e.2.cpu_hits < 2
    · simp [h1, h2] at hfind
    · by_cases h3 : (maxCpuHits e.2.cpu_hits : ℚ) / (e.2.total_hits : ℚ) ≥ 9/10
      · simp [h1, h2, h3] at hfind
      · simp only [if_neg h1, if_neg h2, if_neg h3, Option.some.injEq] at hfind
        subst hfind
        exact ⟨e, hmem, rfl, hstale2, Nat.le_of_not_lt h1, Nat.le_of_not_lt h2,
          lt_of_not_ge h3⟩

/-- Witness for C8 at a concrete stale line hit from two CPUs. -/
theorem C8_fs_flush_filters_witness :
    ∃ e ∈ fsTestState.table,
      e.1 = (FalseSharingFinding.mk 64 3 [1, 2] 5).line_addr ∧
      200 - e.2.last_tsc > fsTestState.window_ns ∧
      fsTestState.threshold ≤ (FalseSharingFinding.mk 64 3 [1, 2] 5).total_hits ∧
      2 ≤ activeCpus (FalseSharingFinding.mk 64 3 [1, 2] 5).cpu_hits ∧
      (maxCpuHits (FalseSharingFinding.mk 64 3 [1, 2] 5).cpu_hits : ℚ) /
        ((FalseSharingFinding.mk 64 3 [1, 2] 5).total_hits : ℚ) < 9/10 := by
  apply C8_fs_flush_filters fsTestState 200 (FalseSharingFinding.mk 64 3 [1, 2] 5)
  · intro e he
    simp only [fsTestState, List.mem_singleton] at he
    subst he
    exact ⟨by norm_num, by norm_num⟩
  · norm_num [FsDetectorState.flush, fsFinding, fsTestState, usub64, activeCpus,
      maxCpuHits, dominantPid]

/-! ### TSC calibrator (C9) -/

/-- clampQ never exceeds its upper bound when the bounds are ordered. -/
theorem clampQ_le_hi (v lo hi : ℚ) (h : lo ≤ hi) : clampQ v lo hi ≤ hi := by
  unfold clampQ
  by_cases h1 : v < lo
  · rw [if_pos h1]; exact h
  · rw [if_neg h1]
    by_cases h2 : hi < v
    · rw [if_pos h2]
    · rw [if_neg h2]; linarith

/-- clampQ never falls below its lower bound when the bounds are ordered. -/
theorem clampQ_lo_le (v lo hi : ℚ) (h : lo ≤ hi) : lo ≤ clampQ v lo hi := by
  unfold clampQ
  by_cases h1 : v < lo
  · rw [if_pos h1]
  · rw [if_neg h1]
    by_cases h2 : hi < v
    · rw [if_pos h2]; exact h
    · rw [if_neg h2]; linarith

/-- The slope EWMA keeps a non-negative slope non-negative. -/
theorem tscSlopeNext_nonneg (cfg : TscCalibrationConfig) (m : CpuModel) (raw ref : Nat)
    (h : 0 ≤ m.slope) : 0 ≤ tscSlopeNext cfg m raw ref := by
  have ha1 : (1 : ℚ)/1000 ≤ clampQ cfg.slope_alpha (1/1000) (1/2) :=
    clampQ_lo_le _ _ _ (by norm_num)
  have ha2 : clampQ cfg.slope_alpha (1/1000) (1/2) ≤ 1/2 :=
    clampQ_le_hi _ _ _ (by norm_num)
  simp only [tscSlopeNext]
  repeat' split
  all_goals try exact h
  all_goals rename_i hest
  all_goals nlinarith [hest.1, hest.2]

/-- With the reference clock unchanged since the last call, the slope is
frozen (`ref_delta = 0`). -/
theorem tscSlopeNext_of_last_ref (cfg : TscCalibrationConfig) (m : CpuModel) (raw ref : Nat)
    (h : m.last_ref = ref) : tscSlopeNext cfg m raw ref = m.slope := by
  simp only [tscSlopeNext]
  have h0 : usub64 ref m.last_ref = 0 := by
    rw [h]
    unfold usub64
    simp
  rw [h0]
  simp

/-- `setModel` stores the model it is given. -/
theorem setModel_model (st : TscCalibratorState) (cpu : Nat) (m : CpuModel)
    (h : cpu < st.models.length) : (st.setModel cpu m).model cpu = m := by
  unfold TscCalibratorState.setModel TscCalibratorState.model
  simp [List.getD]
  rw [List.getElem?_set_self (by simpa using h)]
  rfl

/-- Unfolding `Normalize` on an initialized, non-passthrough model. -/
theorem normalize_initialized (st : TscCalibratorState) (cpu raw ref : Nat)
    (hen : st.cfg.enabled = true) (hcpu : cpu < st.models.length)
    (hinit : (st.model cpu).initialized = true)
    (hpass : (st.model cpu).passthrough_steady_ns = false) :
    st.normalize cpu raw ref =
      (⌊if tscSlopeNext st.cfg (st.model cpu) raw ref * (raw : ℚ) +
            tscOffsetNext st.cfg (st.model cpu) raw ref < 0 then (0 : ℚ)
        else tscSlopeNext st.cfg (st.model cpu) raw ref * (raw : ℚ) +
            tscOffsetNext st.cfg (st.model cpu) raw ref⌋.toNat,
       st.setModel cpu
        { st.model cpu with
          slope := tscSlopeNext st.cfg (st.model cpu) raw ref
          offset := tscOffsetNext st.cfg (st.model cpu) raw ref
          last_raw := raw
          last_ref := ref }) := by
  have hens : st.ensureModel cpu = st := by
    unfold TscCalibratorState.ensureModel
    rw [if_neg (by omega)]
  simp only [TscCalibratorState.normalize, hen, hens, hinit, hpass]
  try simp

/-- The clamp-then-floor-then-toNat pipeline is monotone. -/
theorem clampFloorToNat_mono (u v : ℚ) (h : u ≤ v) :
    (⌊if u < 0 then (0 : ℚ) else u⌋).toNat ≤ (⌊if v < 0 then (0 : ℚ) else v⌋).toNat := by
  apply Int.toNat_le_toNat
  apply Int.floor_mono
  by_cases hu : u < 0
  · rw [if_pos hu]
    by_cases hv : v < 0
    · rw [if_pos hv]
    · rw [if_neg hv]; linarith
  · rw [if_neg hu]
    by_cases hv : v < 0
    · rw [if_pos hv]; linarith
    · rw [if_neg hv]; exact h

/-- C9 (amended): on an initialized, non-passthrough, non-negative-slope
model, two consecutive `Normalize` calls on the same CPU with
`raw2 > raw1` and the same shared-clock reading satisfy
`normalize(cpu, raw2) ≥ normalize(cpu, raw1)`, provided the affine
prediction stored after the first call does not exceed the shared-clock
reading.  (The amendment adds that proviso: when the model is still above
the reference clock, the offset EWMA pulls the second value back down.) -/
theorem C9_calibrator_monotonicity (st : TscCalibratorState) (cpu raw1 raw2 ref : Nat)
    (hen : st.cfg.enabled = true) (hcpu : cpu < st.models.length)
    (hinit : (st.model cpu).initialized = true)
    (hpass : (st.model cpu).passthrough_steady_ns = false)
    (hslope : 0 ≤ (st.model cpu).slope)
    (hraw : raw1 < raw2)
    (hpred : ((st.normalize cpu raw1 ref).2.model cpu).slope * (raw1 : ℚ) +
      ((st.normalize cpu raw1 ref).2.model cpu).offset ≤ (ref : ℚ)) :
    (st.normalize cpu raw1 ref).1 ≤ ((st.normalize cpu raw1 ref).2.normalize cpu raw2 ref).1 := by
  have h1 := normalize_initialized st cpu raw1 ref hen hcpu hinit hpass
  set m := st.model cpu with hm
  set s1 := tscSlopeNext st.cfg m raw1 ref with hs1
  set o1 := tscOffsetNext st.cfg m raw1 ref with ho1
  set m1 : CpuModel :=
    { m with slope := s1, offset := o1, last_raw := raw1, last_ref := ref } with hm1
  have hst1 : (st.normalize cpu raw1 ref).2 = st.setModel cpu m1 := by rw [h1]
  have hmodel1 : (st.normalize cpu raw1 ref).2.model cpu = m1 := by
    rw [hst1]
    exact setModel_model st cpu m1 hcpu
  have hcfg1 : (st.normalize cpu raw1 ref).2.cfg = st.cfg := by rw [hst1]; rfl
  have hlen1 : cpu < (st.normalize cpu raw1 ref).2.models.length := by
    rw [hst1]
    unfold TscCalibratorState.setModel
    simpa using hcpu
  have h2 := normalize_initialized (st.normalize cpu raw1 ref).2 cpu raw2 ref
    (by rw [hcfg1]; exact hen) hlen1
    (by rw [hmodel1]; exact hinit)
    (by rw [hmodel1]; exact hpass)
  have hs2 : tscSlopeNext (st.normalize cpu raw1 ref).2.cfg
      ((st.normalize cpu raw1 ref).2.model cpu) raw2 ref = s1 := by
    rw [hmodel1, hcfg1, tscSlopeNext_of_last_ref st.cfg m1 raw2 ref rfl]
  have hαlo : (1 : ℚ)/1000 ≤ clampQ st.cfg.offset_alpha (1/1000) (1/2) :=
    clampQ_lo_le _ _ _ (by norm_num)
  have hαhi : clampQ st.cfg.offset_alpha (1/1000) (1/2) ≤ 1/2 :=
    clampQ_le_hi _ _ _ (by norm_num)
  set oα := clampQ st.cfg.offset_alpha (1/1000) (1/2) with hoα
  have ho2 : tscOffsetNext (st.normalize cpu raw1 ref).2.cfg
      ((st.normalize cpu raw1 ref).2.model cpu) raw2 ref =
      oα * ((ref : ℚ) - s1 * (raw2 : ℚ)) + (1 - oα) * o1 := by
    unfold tscOffsetNext
    rw [hmodel1, hcfg1, tscSlopeNext_of_last_ref st.cfg m1 raw2 ref rfl]
  have hpred1 : s1 * (raw1 : ℚ) + o1 ≤ (ref : ℚ) := by
    rw [hmodel1] at hpred
    exact hpred
  have hs1nn : 0 ≤ s1 := tscSlopeNext_nonneg st.cfg m raw1 ref hslope
  have hδ : (raw1 : ℚ) ≤ (raw2 : ℚ) := by exact_mod_cast Nat.le_of_lt hraw
  have hkey : s1 * (raw1 : ℚ) + o1 ≤
      s1 * (raw2 : ℚ) + (oα * ((ref : ℚ) - s1 * (raw2 : ℚ)) + (1 - oα) * o1) := by
    have hprod1 : 0 ≤ (1 - oα) * (s1 * ((raw2 : ℚ) - (raw1 : ℚ))) := by
      apply mul_nonneg (by linarith)
      exact mul_nonneg hs1nn (by linarith)
    have hprod2 : 0 ≤ oα * ((ref : ℚ) - (s1 * (raw1 : ℚ) + o1)) := by
      apply mul_nonneg (by linarith)
      linarith
    nlinarith
  rw [h2, hs2, ho2, h1]
  exact clampFloorToNat_mono _ _ hkey

/-- Witness for C9 at a concrete calibrator: seed cpu 0 with raw 100,
then normalize raw 2 and raw 52 at the same reference reading. -/
theorem C9_calibrator_monotonicity_witness :
    ((tscTestState.normalize 0 100 1000000000).2.normalize 0 2 1000000000).1 ≤
      (((tscTestState.normalize 0 100 1000000000).2.normalize 0 2 1000000000).2.normalize
        0 52 1000000000).1 := by
  apply C9_calibrator_monotonicity
  · norm_num [TscCalibratorState.normalize, TscCalibratorState.ensureModel,
      TscCalibratorState.model, TscCalibratorState.setModel, tscTestState, tscTestConfig,
      defaultCpuModel, clampQ, usub64, List.getD]
  · norm_num [TscCalibratorState.normalize, TscCalibratorState.ensureModel,
      TscCalibratorState.model, TscCalibratorState.setModel, tscTestState, tscTestConfig,
      defaultCpuModel, clampQ, usub64, List.getD]
  · norm_num [TscCalibratorState.normalize, TscCalibratorState.ensureModel,
      TscCalibratorState.model, TscCalibratorState.setModel, tscTestState, tscTestConfig,
      defaultCpuModel, clampQ, usub64, List.getD]
  · norm_num [TscCalibratorState.normalize, TscCalibratorState.ensureModel,
      TscCalibratorState.model, TscCalibratorState.setModel, tscTestState, tscTestConfig,
      defaultCpuModel, clampQ, usub64, List.getD]
  · norm_num [TscCalibratorState.normalize, TscCalibratorState.ensureModel,
      TscCalibratorState.model, TscCalibratorState.setModel, tscTestState, tscTestConfig,
      defaultCpuModel, clampQ, usub64, List.getD]
  · norm_num
  · norm_num [TscCalibratorState.normalize, TscCalibratorState.ensureModel,
      TscCalibratorState.model, TscCalibratorState.setModel, tscTestState, tscTestConfig,
      defaultCpuModel, clampQ, usub64, tscSlopeNext, tscOffsetNext, List.getD]

/-- C9 counterexample: seed cpu 0 with raw 2, then normalize raw 1002 and
raw 1010 at the same reference reading 10^9: the first call returns
1000000500 but the second, larger, raw timestamp returns only
1000000254, because the offset EWMA pulls the prediction back toward the
reference clock. -/
theorem C9_calibrator_monotonicity_cex :
    (1002 : Nat) < 1010 ∧
    ((((tscTestState.normalize 0 2 1000000000).2.normalize 0 1002 1000000000).2.normalize
      0 1010 1000000000).1 <
     ((tscTestState.normalize 0 2 1000000000).2.normalize 0 1002 1000000000).1) := by
  refine ⟨by norm_num, ?_⟩
  norm_num [TscCalibratorState.normalize, TscCalibratorState.ensureModel,
    TscCalibratorState.model, TscCalibratorState.setModel, tscTestState, tscTestConfig,
    defaultCpuModel, clampQ, usub64, tscSlopeNext, tscOffsetNext, List.getD]

end MicroSentinel
